import Mathlib

/-!
# Distance handler (`main.go`): a shallow embedding and its verification

The program is one AWS Lambda handler.  It reads an API key from the
environment, constructs a Google Maps client, issues one distance-matrix
request (origin taken from the query string, destination a constant),
extracts the human-readable distance and answers with a JSON body.

Modelling conventions

* Go `string`s are Lean `String`s, i.e. sequences of Unicode scalar values
  (the strings handled here are valid UTF-8).
* A Go `error` is `GoError = Option String`: `none` is `nil`, `some m` is an
  error whose `Error()` text is `m`.
* A Go `[]byte` obtained by converting a string is `ByteSlice = Option String`:
  `none` is the `nil` slice, `some s` is `[]byte(s)`.
* A Go `map[string]string` is an association list; indexing an absent key
  gives the zero value `""`.
* The collaborators that live outside the repository (`os.Getenv`,
  `maps.NewClient`, `(*maps.Client).DistanceMatrix`) are the fields of a
  `World`; the effects of one invocation (lines handed to `errorLogger`,
  distance-matrix requests sent) are returned next to the result in a `Run`.
* A Go run-time panic is the `Outcome.panic` constructor.
-/

namespace DistanceHandler

/-! ## Go values -/

/-- Go `error`: `none` is `nil`, `some m` an error with message `m`. -/
abbrev GoError := Option String

/-- Go `[]byte` made from a string: `none` is the `nil` slice. -/
abbrev ByteSlice := Option String

/-- Conversion `[]byte(s)`. -/
def bytesOfString (s : String) : ByteSlice := some s

/-- Conversion `string(b)`; the `nil` slice converts to the empty string. -/
def stringOfBytes : ByteSlice → String
  | none => ""
  | some s => s

/-- Go `map[string]string`. -/
abbrev StringMap := List (String × String)

/-- Go map indexing `m[k]`: the zero value `""` when the key is absent. -/
def StringMap.index (m : StringMap) (k : String) : String :=
  (m.lookup k).getD ""

/-- The run-time panics that the handler can raise. -/
inductive RuntimePanic where
  | indexOutOfRange
  | nilDereference
  deriving DecidableEq, Repr

/-- Result of running Go code: a normal return or a run-time panic. -/
inductive Outcome (α : Type) where
  | ret : α → Outcome α
  | panic : RuntimePanic → Outcome α
  deriving DecidableEq, Repr

/-! ## Library types (`events`, `maps`, `net/http`) -/

/-- The fields of `events.APIGatewayProxyRequest` that carry request data. -/
structure APIGatewayProxyRequest where
  Resource : String := ""
  Path : String := ""
  HTTPMethod : String := ""
  Headers : StringMap := []
  QueryStringParameters : StringMap := []
  PathParameters : StringMap := []
  StageVariables : StringMap := []
  Body : String := ""
  IsBase64Encoded : Bool := false
  deriving DecidableEq, Repr

/-- The type `events.APIGatewayProxyResponse`; unset fields hold zero values. -/
structure APIGatewayProxyResponse where
  StatusCode : Int := 0
  Headers : StringMap := []
  Body : String := ""
  IsBase64Encoded : Bool := false
  deriving DecidableEq, Repr

/-- The type `maps.Distance`. -/
structure Distance where
  HumanReadable : String := ""
  Meters : Int := 0
  deriving DecidableEq, Repr

/-- The type `maps.DistanceMatrixElement` (durations in nanoseconds). -/
structure DistanceMatrixElement where
  Status : String := ""
  Duration : Int := 0
  DurationInTraffic : Int := 0
  Distance : Distance := {}
  deriving DecidableEq, Repr

/-- The type `maps.DistanceMatrixElementsRow`; `Elements` is a slice of
pointers, `none` being a `nil` pointer. -/
structure DistanceMatrixElementsRow where
  Elements : List (Option DistanceMatrixElement) := []
  deriving DecidableEq, Repr

/-- The type `maps.DistanceMatrixResponse`. -/
structure DistanceMatrixResponse where
  OriginAddresses : List String := []
  DestinationAddresses : List String := []
  Rows : List DistanceMatrixElementsRow := []
  deriving DecidableEq, Repr

/-- The fields of `maps.DistanceMatrixRequest` that `getDistance` sets. -/
structure DistanceMatrixRequest where
  Origins : List String := []
  Destinations : List String := []
  deriving DecidableEq, Repr

/-- A constructed `*maps.Client`, identified by the key it was built with. -/
structure Client where
  apiKey : String
  deriving DecidableEq, Repr

/-- `http.StatusOK`. -/
def StatusOK : Int := 200
/-- `http.StatusNotFound`. -/
def StatusNotFound : Int := 404
/-- `http.StatusInternalServerError`. -/
def StatusInternalServerError : Int := 500

/-- `http.StatusText`: the reason phrase of a status code, `""` if unknown. -/
def StatusText (code : Int) : String :=
  if code = 100 then "Continue"
  else if code = 101 then "Switching Protocols"
  else if code = 102 then "Processing"
  else if code = 103 then "Early Hints"
  else if code = 200 then "OK"
  else if code = 201 then "Created"
  else if code = 202 then "Accepted"
  else if code = 203 then "Non-Authoritative Information"
  else if code = 204 then "No Content"
  else if code = 205 then "Reset Content"
  else if code = 206 then "Partial Content"
  else if code = 207 then "Multi-Status"
  else if code = 208 then "Already Reported"
  else if code = 226 then "IM Used"
  else if code = 300 then "Multiple Choices"
  else if code = 301 then "Moved Permanently"
  else if code = 302 then "Found"
  else if code = 303 then "See Other"
  else if code = 304 then "Not Modified"
  else if code = 305 then "Use Proxy"
  else if code = 307 then "Temporary Redirect"
  else if code = 308 then "Permanent Redirect"
  else if code = 400 then "Bad Request"
  else if code = 401 then "Unauthorized"
  else if code = 402 then "Payment Required"
  else if code = 403 then "Forbidden"
  else if code = 404 then "Not Found"
  else if code = 405 then "Method Not Allowed"
  else if code = 406 then "Not Acceptable"
  else if code = 407 then "Proxy Authentication Required"
  else if code = 408 then "Request Timeout"
  else if code = 409 then "Conflict"
  else if code = 410 then "Gone"
  else if code = 411 then "Length Required"
  else if code = 412 then "Precondition Failed"
  else if code = 413 then "Request Entity Too Large"
  else if code = 414 then "Request URI Too Long"
  else if code = 415 then "Unsupported Media Type"
  else if code = 416 then "Requested Range Not Satisfiable"
  else if code = 417 then "Expectation Failed"
  else if code = 418 then "I'm a teapot"
  else if code = 421 then "Misdirected Request"
  else if code = 422 then "Unprocessable Entity"
  else if code = 423 then "Locked"
  else if code = 424 then "Failed Dependency"
  else if code = 425 then "Too Early"
  else if code = 426 then "Upgrade Required"
  else if code = 428 then "Precondition Required"
  else if code = 429 then "Too Many Requests"
  else if code = 431 then "Request Header Fields Too Large"
  else if code = 451 then "Unavailable For Legal Reasons"
  else if code = 500 then "Internal Server Error"
  else if code = 501 then "Not Implemented"
  else if code = 502 then "Bad Gateway"
  else if code = 503 then "Service Unavailable"
  else if code = 504 then "Gateway Timeout"
  else if code = 505 then "HTTP Version Not Supported"
  else if code = 506 then "Variant Also Negotiates"
  else if code = 507 then "Insufficient Storage"
  else if code = 508 then "Loop Detected"
  else if code = 510 then "Not Extended"
  else if code = 511 then "Network Authentication Required"
  else ""

/-! ## The collaborators and the effects of an invocation -/

/-- Everything the handler obtains from outside the process. -/
structure World where
  /-- `os.Getenv`. -/
  getenv : String → String
  /-- `maps.NewClient(maps.WithAPIKey(key))`: a client or an error text. -/
  newClient : String → Except String Client
  /-- `client.DistanceMatrix(context.Background(), r)`: the response of the
  upstream service, or the text of the error the call returned. -/
  distanceMatrix : Client → DistanceMatrixRequest → Except String DistanceMatrixResponse

/-- One execution: what was handed to `errorLogger.Println` (one entry per
call, oldest first), the distance-matrix requests sent (oldest first), and
the outcome. -/
structure Run (α : Type) where
  logged : List String
  outbound : List DistanceMatrixRequest
  result : Outcome α

/-! ## `main.go` -/

/-- Constant `pmConnectAddress`. -/
def pmConnectAddress : String := "B31 2UQ"

/-- Type `Response`, the payload of a successful answer. -/
structure Response where
  Distance : String
  Ok : Bool
  deriving DecidableEq, Repr

/-- `errors.Wrap(err, message)` of `github.com/pkg/errors` for a non-nil
`err`: the message, a colon and the text of the wrapped error. -/
def errorsWrap (err : String) (message : String) : GoError :=
  some (message ++ ": " ++ err)

/-- `errors.New(message)`. -/
def errorsNew (message : String) : GoError := some message

/-- Function `getDistance` (`main.go`, lines 63-83).  The first component is
the request handed to `client.DistanceMatrix`. -/
def getDistance (w : World) (client : Client) (origin : String) :
    DistanceMatrixRequest × Outcome (ByteSlice × GoError) :=
  let r : DistanceMatrixRequest :=
    { Origins := [origin], Destinations := [pmConnectAddress] }
  match w.distanceMatrix client r with
  | .error err =>
    (r, .ret (none, errorsWrap err ("could not get response from origin " ++ origin)))
  | .ok resp =>
    match resp.Rows with
    | [] => (r, .panic .indexOutOfRange)
    | row :: _ =>
      match row.Elements with
      | [] => (r, .panic .indexOutOfRange)
      | none :: _ => (r, .panic .nilDereference)
      | some element :: _ =>
        let distance := element.Distance.HumanReadable
        if distance.length = 0 then
          (r, .ret (none, errorsNew "could not find a distance, is your origin correct?"))
        else
          (r, .ret (bytesOfString distance, none))

/-- Function `serverError` (lines 87-94): logs the error text, answers 500
with the standard status text. -/
def serverError (err : String) : List String × APIGatewayProxyResponse × GoError :=
  ([err],
   { StatusCode := StatusInternalServerError,
     Body := StatusText StatusInternalServerError },
   none)

/-- Function `clientError` (lines 97-102). -/
def clientError (status : Int) : APIGatewayProxyResponse × GoError :=
  ({ StatusCode := status, Body := StatusText status }, none)

/-! ### `encoding/json` on a `Response`

`json.Marshal` is applied to a struct with one `string` and one `bool` field,
tagged `distance` and `ok`.  The encoder writes the fields in declaration
order without white space and quotes the string with `appendString`
(HTML escaping on, as `Marshal` does).  It reports no error for such a struct.
The escapes are those of the current encoder, which writes backspace and
form feed as `\b` and `\f`; older releases wrote `\u0008` and `\u000c` for
them, another spelling of the same JSON string. -/

/-- Table `hex` of `encoding/json`: the lower-case hexadecimal digit. -/
def hex (n : Nat) : Char :=
  if n < 10 then Char.ofNat (48 + n) else Char.ofNat (87 + n)

/-- Table `htmlSafeSet` of `encoding/json` (for runes below `utf8.RuneSelf`):
everything from the space on except the quote, the backslash and `<`, `>`, `&`. -/
def htmlSafe (c : Char) : Bool :=
  decide (32 ≤ c.toNat) && c != '"' && c != '\\' && c != '<' && c != '>' && c != '&'

/-- One iteration of the loop of `appendString` on the rune `c`. -/
def appendRune (c : Char) : List Char :=
  if c.toNat < 128 then
    if htmlSafe c then [c]
    else if c = '\\' ∨ c = '"' then ['\\', c]
    else if c = '\x08' then ['\\', 'b']
    else if c = '\x0c' then ['\\', 'f']
    else if c = '\n' then ['\\', 'n']
    else if c = '\r' then ['\\', 'r']
    else if c = '\t' then ['\\', 't']
    else ['\\', 'u', '0', '0', hex (c.toNat / 16), hex (c.toNat % 16)]
  else if c = '\u2028' ∨ c = '\u2029' then
    ['\\', 'u', '2', '0', '2', hex (c.toNat % 16)]
  else [c]

/-- The loop of `appendString` over the runes of the source string. -/
def appendRunes : List Char → List Char
  | [] => []
  | c :: cs => appendRune c ++ appendRunes cs

/-- Function `appendString` of `encoding/json`: the quoted JSON string. -/
def appendString (s : String) : List Char :=
  '"' :: (appendRunes s.data ++ ['"'])

/-- The encoding of a `bool`. -/
def appendBool (b : Bool) : List Char :=
  if b then "true".data else "false".data

/-- `json.Marshal(resp)` for `resp : Response`: the bytes and a `nil` error. -/
def jsonMarshal (resp : Response) : String × GoError :=
  (String.mk ("\x7b\"distance\":".data ++ appendString resp.Distance ++
      ",\"ok\":".data ++ appendBool resp.Ok ++ ['\x7d']),
   none)

/-- Function `Handler` (lines 33-61). -/
def Handler (w : World) (r : APIGatewayProxyRequest) :
    Run (APIGatewayProxyResponse × GoError) :=
  let api := w.getenv "GOOGLE_API"
  match w.newClient api with
  | .error err =>
    let out := serverError err
    { logged := out.1, outbound := [], result := .ret out.2 }
  | .ok client =>
    let origin := r.QueryStringParameters.index "origin"
    match getDistance w client origin with
    | (req, .panic p) => { logged := [], outbound := [req], result := .panic p }
    | (req, .ret (distance, err)) =>
      -- `if err != nil { clientError(http.StatusNotFound) }`: the value is dropped
      let _dropped := if err ≠ none then some (clientError StatusNotFound) else none
      let resp : Response := { Distance := stringOfBytes distance, Ok := true }
      match jsonMarshal resp with
      | (_, some err) =>
        let out := serverError err
        { logged := out.1, outbound := [req], result := .ret out.2 }
      | (j, none) =>
        { logged := [], outbound := [req],
          result := .ret ({ StatusCode := StatusOK, Body := j }, none) }

/-! ## The response schema (specification side)

A reader of JSON texts, written from RFC 8259 and from the words of the
specification (an object with exactly the two fields `distance`, a string,
and `ok`, a boolean), independent of the encoder above.  It is used to say
what a body *means*. -/

/-- JSON white space. -/
def isJSONSpace (c : Char) : Bool :=
  c == ' ' || c == '\t' || c == '\n' || c == '\r'

/-- Drop leading JSON white space. -/
def skipSpace : List Char → List Char
  | [] => []
  | c :: cs => if isJSONSpace c then skipSpace cs else c :: cs

/-- Value of a hexadecimal digit, in either case. -/
def hexValue (c : Char) : Option Nat :=
  if 48 ≤ c.toNat ∧ c.toNat ≤ 57 then some (c.toNat - 48)
  else if 97 ≤ c.toNat ∧ c.toNat ≤ 102 then some (c.toNat - 87)
  else if 65 ≤ c.toNat ∧ c.toNat ≤ 70 then some (c.toNat - 55)
  else none

/-- Value of four hexadecimal digits. -/
def hexValue4 (a b c d : Char) : Option Nat :=
  match hexValue a, hexValue b, hexValue c, hexValue d with
  | some x, some y, some z, some t => some (((x * 16 + y) * 16 + z) * 16 + t)
  | _, _, _, _ => none

/-- The character a two-character escape stands for. -/
def unescape (e : Char) : Option Char :=
  if e = '"' then some '"'
  else if e = '\\' then some '\\'
  else if e = '/' then some '/'
  else if e = 'b' then some '\x08'
  else if e = 'f' then some '\x0c'
  else if e = 'n' then some '\n'
  else if e = 'r' then some '\r'
  else if e = 't' then some '\t'
  else none

/-- High (leading) UTF-16 surrogate. -/
def isHighSurrogate (n : Nat) : Bool := decide (0xD800 ≤ n) && decide (n ≤ 0xDBFF)

/-- Low (trailing) UTF-16 surrogate. -/
def isLowSurrogate (n : Nat) : Bool := decide (0xDC00 ≤ n) && decide (n ≤ 0xDFFF)

/-- Where the reader of a JSON string stands; `out` is what has been decoded. -/
inductive StringState where
  /-- Between two characters of the string. -/
  | plain (out : List Char)
  /-- After a backslash. -/
  | escape (out : List Char)
  /-- Inside `\u`, `k` digits read with value `acc`; `pending` is a high
  surrogate read just before, waiting for its low half. -/
  | hexDigits (out : List Char) (pending : Option Nat) (k : Nat) (acc : Nat)
  /-- After a `\u` escape that is a high surrogate. -/
  | afterHigh (out : List Char) (hi : Nat)
  /-- After a high surrogate and a backslash. -/
  | afterHighEscape (out : List Char) (hi : Nat)
  deriving DecidableEq, Repr

/-- What one character does to the reader of a JSON string. -/
inductive StringStep where
  | more (s : StringState)
  | done (out : List Char)
  | fail
  deriving DecidableEq, Repr

/-- A character read between two characters of the string. -/
def plainStep (out : List Char) (c : Char) : StringStep :=
  if c = '"' then .done out
  else if c = '\\' then .more (.escape out)
  else if c.toNat < 32 then .fail
  else .more (.plain (out ++ [c]))

/-- A character read after a backslash. -/
def escapeStep (out : List Char) (e : Char) : StringStep :=
  if e = 'u' then .more (.hexDigits out none 0 0)
  else
    match unescape e with
    | none => .fail
    | some ch => .more (.plain (out ++ [ch]))

/-- A complete `\u` escape of value `n`, no high surrogate pending: a lone
low surrogate denotes U+FFFD, a high one waits for its low half. -/
def unitStep (out : List Char) (n : Nat) : StringState :=
  if isHighSurrogate n then .afterHigh out n
  else if isLowSurrogate n then .plain (out ++ ['\ufffd'])
  else .plain (out ++ [Char.ofNat n])

/-- One character of a JSON string. -/
def stringStep : StringState → Char → StringStep
  | .plain out, c => plainStep out c
  | .escape out, e => escapeStep out e
  | .hexDigits out pending k acc, h =>
    match hexValue h with
    | none => .fail
    | some v =>
      if k < 3 then .more (.hexDigits out pending (k + 1) (acc * 16 + v))
      else
        match pending with
        | none => .more (unitStep out (acc * 16 + v))
        | some hi =>
          if isLowSurrogate (acc * 16 + v) then
            .more (.plain (out ++
              [Char.ofNat (0x10000 + (hi - 0xD800) * 0x400 + (acc * 16 + v - 0xDC00))]))
          else .more (unitStep (out ++ ['\ufffd']) (acc * 16 + v))
  | .afterHigh out hi, c =>
    if c = '\\' then .more (.afterHighEscape out hi)
    else plainStep (out ++ ['\ufffd']) c
  | .afterHighEscape out hi, e =>
    if e = 'u' then .more (.hexDigits out (some hi) 0 0)
    else escapeStep (out ++ ['\ufffd']) e

/-- Run the reader of a JSON string up to the closing quote: the characters
the string denotes and the input after the quote. -/
def readStringFrom : StringState → List Char → Option (List Char × List Char)
  | _, [] => none
  | st, c :: rest =>
    match stringStep st c with
    | .fail => none
    | .done out => some (out, rest)
    | .more st1 => readStringFrom st1 rest

/-- Read a JSON string whose opening quote has been consumed. -/
def readString (cs : List Char) : Option (List Char × List Char) :=
  readStringFrom (.plain []) cs

/-- The values the schema admits for a field. -/
inductive Scalar where
  | str : String → Scalar
  | bool : Bool → Scalar
  deriving DecidableEq, Repr

/-- Read a string or a boolean. -/
def readScalar : List Char → Option (Scalar × List Char)
  | [] => none
  | c :: rest =>
    if c = '"' then
      match readString rest with
      | some (s, rest1) => some (.str (String.mk s), rest1)
      | none => none
    else
      match c :: rest with
      | 't' :: 'r' :: 'u' :: 'e' :: rest1 => some (.bool true, rest1)
      | 'f' :: 'a' :: 'l' :: 's' :: 'e' :: rest1 => some (.bool false, rest1)
      | _ => none

/-- Read one member `"name" : value` of an object. -/
def readMember : List Char → Option ((String × Scalar) × List Char)
  | [] => none
  | c :: rest =>
    if c = '"' then
      match readString rest with
      | none => none
      | some (name, rest1) =>
        match skipSpace rest1 with
        | [] => none
        | colon :: rest2 =>
          if colon = ':' then
            match readScalar (skipSpace rest2) with
            | none => none
            | some (v, rest3) => some ((String.mk name, v), rest3)
          else none
    else none

/-- The two members of the schema, in either order. -/
def responseOfMembers : String × Scalar → String × Scalar → Option Response
  | (k1, .str d), (k2, .bool b) =>
    if k1 = "distance" ∧ k2 = "ok" then some { Distance := d, Ok := b } else none
  | (k1, .bool b), (k2, .str d) =>
    if k1 = "ok" ∧ k2 = "distance" then some { Distance := d, Ok := b } else none
  | _, _ => none

/-- Read a whole JSON text as an object with exactly the two fields
`distance` (a string) and `ok` (a boolean); `none` if the text is not such
an object. -/
def decodeResponse (body : String) : Option Response :=
  match skipSpace body.data with
  | [] => none
  | open_ :: r0 =>
    if open_ = '\x7b' then
      match readMember (skipSpace r0) with
      | none => none
      | some (m1, r1) =>
        match skipSpace r1 with
        | [] => none
        | comma :: r2 =>
          if comma = ',' then
            match readMember (skipSpace r2) with
            | none => none
            | some (m2, r3) =>
              match skipSpace r3 with
              | [] => none
              | close :: r4 =>
                if close = '\x7d' ∧ skipSpace r4 = [] then responseOfMembers m1 m2
                else none
          else none
    else none

/-- A body is a valid JSON text matching the two-field schema exactly. -/
def IsResponseJSON (body : String) : Prop := (decodeResponse body).isSome = true

instance (body : String) : Decidable (IsResponseJSON body) := by
  unfold IsResponseJSON; infer_instance

/-! ## Concrete environments -/

/-- A key is configured, the client is built, and the upstream answers one
row with one element carrying a distance. -/
def worldHealthy : World where
  getenv := fun k => if k = "GOOGLE_API" then "k3y" else ""
  newClient := fun key =>
    if key = "" then .error "maps: API Key or Maps for Work credentials missing"
    else .ok { apiKey := key }
  distanceMatrix := fun _ _ =>
    .ok { Rows := [{ Elements := [some { Status := "OK",
                                          Distance := { HumanReadable := "5.2 km",
                                                        Meters := 5200 } }] }] }

/-- No key is configured: building the client fails. -/
def worldNoKey : World :=
  { worldHealthy with getenv := fun _ => "" }

/-- The upstream call returns an error. -/
def worldUpstreamDown : World :=
  { worldHealthy with distanceMatrix := fun _ _ => .error "context deadline exceeded" }

/-- The upstream answers an element without a distance (address not found). -/
def worldNoDistance : World :=
  { worldHealthy with
    distanceMatrix := fun _ _ => .ok { Rows := [{ Elements := [some { Status := "NOT_FOUND" }] }] } }

/-- The upstream answers without error and without rows. -/
def worldNoRows : World :=
  { worldHealthy with distanceMatrix := fun _ _ => .ok { Rows := [] } }

/-- A request with `?origin=B1 1AA`. -/
def requestWithOrigin : APIGatewayProxyRequest :=
  { HTTPMethod := "GET", QueryStringParameters := [("origin", "B1 1AA")] }

/-- A request without query parameters. -/
def requestWithoutOrigin : APIGatewayProxyRequest :=
  { HTTPMethod := "GET" }

/-- The distance-matrix request that `Handler` builds for the request `r`. -/
def issuedRequest (r : APIGatewayProxyRequest) : DistanceMatrixRequest :=
  { Origins := [r.QueryStringParameters.index "origin"], Destinations := [pmConnectAddress] }

/-! ## Reading back what the encoder writes -/

theorem readStringFrom_cons (st : StringState) (c : Char) (rest : List Char) :
    readStringFrom st (c :: rest) =
      match stringStep st c with
      | .fail => none
      | .done out => some (out, rest)
      | .more st1 => readStringFrom st1 rest := rfl

theorem hexValue_hex (k : Nat) (h : k < 16) : hexValue (hex k) = some k := by
  interval_cases k <;> decide

theorem read_plain (c : Char) (out tail : List Char)
    (hq : c ≠ '"') (hb : c ≠ '\\') (h32 : 32 ≤ c.toNat) :
    readStringFrom (.plain out) (c :: tail) = readStringFrom (.plain (out ++ [c])) tail := by
  simp [readStringFrom_cons, stringStep, plainStep, hq, hb, Nat.not_lt.mpr h32]

theorem read_escape (e ch : Char) (out tail : List Char)
    (hu : e ≠ 'u') (he : unescape e = some ch) :
    readStringFrom (.plain out) ('\\' :: e :: tail) =
      readStringFrom (.plain (out ++ [ch])) tail := by
  have h1 : stringStep (.plain out) '\\' = .more (.escape out) := by
    simp [stringStep, plainStep]
  have h2 : stringStep (.escape out) e = .more (.plain (out ++ [ch])) := by
    simp [stringStep, escapeStep, hu, he]
  rw [readStringFrom_cons, h1]
  simp only []
  rw [readStringFrom_cons, h2]

theorem read_unit (a b c d : Char) (x y z t : Nat) (out tail : List Char)
    (ha : hexValue a = some x) (hb : hexValue b = some y) (hc : hexValue c = some z)
    (hd : hexValue d = some t) :
    readStringFrom (.plain out) ('\\' :: 'u' :: a :: b :: c :: d :: tail) =
      readStringFrom (unitStep out (((x * 16 + y) * 16 + z) * 16 + t)) tail := by
  have h1 : stringStep (.plain out) '\\' = .more (.escape out) := by
    simp [stringStep, plainStep]
  have h2 : stringStep (.escape out) 'u' = .more (.hexDigits out none 0 0) := by
    simp [stringStep, escapeStep]
  have h3 : stringStep (.hexDigits out none 0 0) a = .more (.hexDigits out none 1 x) := by
    simp [stringStep, ha]
  have h4 : stringStep (.hexDigits out none 1 x) b =
      .more (.hexDigits out none 2 (x * 16 + y)) := by
    simp [stringStep, hb]
  have h5 : stringStep (.hexDigits out none 2 (x * 16 + y)) c =
      .more (.hexDigits out none 3 ((x * 16 + y) * 16 + z)) := by
    simp [stringStep, hc]
  have h6 : stringStep (.hexDigits out none 3 ((x * 16 + y) * 16 + z)) d =
      .more (unitStep out (((x * 16 + y) * 16 + z) * 16 + t)) := by
    simp [stringStep, hd]
  rw [readStringFrom_cons, h1]
  simp only []
  rw [readStringFrom_cons, h2]
  simp only []
  rw [readStringFrom_cons, h3]
  simp only []
  rw [readStringFrom_cons, h4]
  simp only []
  rw [readStringFrom_cons, h5]
  simp only []
  rw [readStringFrom_cons, h6]

theorem read_low (c : Char) (h128 : c.toNat < 128) (out tail : List Char) :
    readStringFrom (.plain out)
        ('\\' :: 'u' :: '0' :: '0' :: hex (c.toNat / 16) :: hex (c.toNat % 16) :: tail) =
      readStringFrom (.plain (out ++ [c])) tail := by
  have h0 : hexValue '0' = some 0 := by decide
  rw [read_unit '0' '0' _ _ 0 0 (c.toNat / 16) (c.toNat % 16) out tail h0 h0
    (hexValue_hex _ (by omega)) (hexValue_hex _ (Nat.mod_lt _ (by decide)))]
  have hn : ((0 * 16 + 0) * 16 + c.toNat / 16) * 16 + c.toNat % 16 = c.toNat := by omega
  rw [hn]
  have hhi : isHighSurrogate c.toNat = false := by
    simp only [isHighSurrogate, Bool.and_eq_false_iff, decide_eq_false_iff_not]; omega
  have hlo : isLowSurrogate c.toNat = false := by
    simp only [isLowSurrogate, Bool.and_eq_false_iff, decide_eq_false_iff_not]; omega
  simp [unitStep, hhi, hlo, Char.ofNat_toNat]

theorem appendRune_read (c : Char) (out tail : List Char) :
    readStringFrom (.plain out) (appendRune c ++ tail) =
      readStringFrom (.plain (out ++ [c])) tail := by
  unfold appendRune
  by_cases h128 : c.toNat < 128
  · rw [if_pos h128]
    by_cases hs : htmlSafe c = true
    · rw [if_pos hs]
      simp only [htmlSafe, Bool.and_eq_true, decide_eq_true_eq, bne_iff_ne, ne_eq] at hs
      exact read_plain c out tail hs.1.1.1.1.2 hs.1.1.1.2 hs.1.1.1.1.1
    · rw [if_neg hs]
      by_cases h1 : c = '\\' ∨ c = '"'
      · rw [if_pos h1]
        rcases h1 with rfl | rfl
        · exact read_escape _ _ out tail (by decide) (by decide)
        · exact read_escape _ _ out tail (by decide) (by decide)
      rw [if_neg h1]
      by_cases h2 : c = '\x08'
      · subst h2; exact read_escape _ _ out tail (by decide) (by decide)
      rw [if_neg h2]
      by_cases h3 : c = '\x0c'
      · subst h3; exact read_escape _ _ out tail (by decide) (by decide)
      rw [if_neg h3]
      by_cases h4 : c = '\n'
      · subst h4; exact read_escape _ _ out tail (by decide) (by decide)
      rw [if_neg h4]
      by_cases h5 : c = '\r'
      · subst h5; exact read_escape _ _ out tail (by decide) (by decide)
      rw [if_neg h5]
      by_cases h6 : c = '\t'
      · subst h6; exact read_escape _ _ out tail (by decide) (by decide)
      rw [if_neg h6]
      exact read_low c h128 out tail
  · rw [if_neg h128]
    by_cases hsep : c = '\u2028' ∨ c = '\u2029'
    · rw [if_pos hsep]
      rcases hsep with rfl | rfl
      · have e : hex ('\u2028'.toNat % 16) = '8' := by decide
        rw [e]
        rw [show (['\\', 'u', '2', '0', '2', '8'] ++ tail) =
          '\\' :: 'u' :: '2' :: '0' :: '2' :: '8' :: tail from rfl]
        rw [read_unit '2' '0' '2' '8' 2 0 2 8 out tail (by decide) (by decide) (by decide)
          (by decide)]
        rfl
      · have e : hex ('\u2029'.toNat % 16) = '9' := by decide
        rw [e]
        rw [show (['\\', 'u', '2', '0', '2', '9'] ++ tail) =
          '\\' :: 'u' :: '2' :: '0' :: '2' :: '9' :: tail from rfl]
        rw [read_unit '2' '0' '2' '9' 2 0 2 9 out tail (by decide) (by decide) (by decide)
          (by decide)]
        rfl
    · rw [if_neg hsep]
      have hq : c ≠ '"' := by
        intro h; subst h; exact h128 (by decide)
      have hb : c ≠ '\\' := by
        intro h; subst h; exact h128 (by decide)
      exact read_plain c out tail hq hb (by omega)

theorem readStringFrom_appendRunes (cs out tail : List Char) :
    readStringFrom (.plain out) (appendRunes cs ++ '"' :: tail) = some (out ++ cs, tail) := by
  induction cs generalizing out with
  | nil => simp [appendRunes, readStringFrom_cons, stringStep, plainStep]
  | cons c cs ih =>
    rw [appendRunes, List.append_assoc, appendRune_read, ih]
    simp

theorem readString_appendString (s : String) (tail : List Char) :
    readString (appendRunes s.data ++ '"' :: tail) = some (s.data, tail) := by
  unfold readString
  rw [readStringFrom_appendRunes]
  simp

theorem skipSpace_cons_of_not_space (c : Char) (rest : List Char)
    (h : isJSONSpace c = false) : skipSpace (c :: rest) = c :: rest := by
  simp [skipSpace, h]

theorem readScalar_string (v : String) (tail : List Char) :
    readScalar ('"' :: (appendRunes v.data ++ '"' :: tail)) = some (.str v, tail) := by
  simp [readScalar, readString_appendString]

theorem readScalar_bool (b : Bool) (tail : List Char) :
    readScalar (appendBool b ++ tail) = some (.bool b, tail) := by
  cases b <;> simp [readScalar, appendBool]

theorem readMember_string (k v : String) (tail : List Char) :
    readMember ('"' :: (appendRunes k.data ++ '"' :: ':' :: '"' ::
        (appendRunes v.data ++ '"' :: tail))) = some ((k, .str v), tail) := by
  have hc : isJSONSpace ':' = false := by decide
  have hq : isJSONSpace '"' = false := by decide
  simp only [readMember, if_true, readString_appendString,
    skipSpace_cons_of_not_space _ _ hc, skipSpace_cons_of_not_space _ _ hq,
    readScalar_string]

theorem readMember_bool (k : String) (b : Bool) (tail : List Char) :
    readMember ('"' :: (appendRunes k.data ++ '"' :: ':' :: (appendBool b ++ tail))) =
      some ((k, .bool b), tail) := by
  have hc : isJSONSpace ':' = false := by decide
  have hb : skipSpace (appendBool b ++ tail) = appendBool b ++ tail := by
    cases b <;> simp [appendBool, skipSpace, isJSONSpace]
  simp only [readMember, if_true, readString_appendString,
    skipSpace_cons_of_not_space _ _ hc, hb, readScalar_bool]

/-- What `json.Marshal` writes for a `Response` reads back, under the
two-field schema, as that same `Response`. -/
theorem decodeResponse_jsonMarshal (r : Response) :
    decodeResponse (jsonMarshal r).1 = some r := by
  obtain ⟨d, ok⟩ := r
  have hshape : (jsonMarshal ⟨d, ok⟩).1.data =
      '\x7b' :: '"' :: (appendRunes "distance".data ++ '"' :: ':' :: '"' ::
        (appendRunes d.data ++ '"' :: ',' :: '"' ::
          (appendRunes "ok".data ++ '"' :: ':' :: (appendBool ok ++ ['\x7d'])))) := by
    have h1 : appendRunes "distance".data = "distance".data := by decide
    have h2 : appendRunes "ok".data = "ok".data := by decide
    rw [h1, h2]
    simp [jsonMarshal, appendString]
  have ho : isJSONSpace '\x7b' = false := by decide
  have hq : isJSONSpace '"' = false := by decide
  have hcm : isJSONSpace ',' = false := by decide
  have hcl : isJSONSpace '\x7d' = false := by decide
  unfold decodeResponse
  rw [hshape]
  rw [skipSpace_cons_of_not_space _ _ ho]
  simp only [if_true]
  rw [skipSpace_cons_of_not_space _ _ hq, readMember_string "distance" d]
  simp only []
  rw [skipSpace_cons_of_not_space _ _ hcm]
  simp only [if_true]
  rw [skipSpace_cons_of_not_space _ _ hq, readMember_bool "ok" ok]
  simp only []
  rw [skipSpace_cons_of_not_space _ _ hcl]
  simp [skipSpace, responseOfMembers]

/-! ## The paths of `Handler` -/

theorem getDistance_fst (w : World) (client : Client) (origin : String) :
    (getDistance w client origin).1 =
      { Origins := [origin], Destinations := [pmConnectAddress] } := by
  unfold getDistance
  simp only []
  split
  · rfl
  · split
    · rfl
    · split
      · rfl
      · rfl
      · split <;> rfl

theorem getDistance_error_nil (w : World) (client : Client) (origin : String)
    (b : ByteSlice) (e : String)
    (h : (getDistance w client origin).2 = .ret (b, some e)) : b = none := by
  unfold getDistance at h
  simp only [] at h
  split at h
  · simp only [Outcome.ret.injEq, Prod.mk.injEq] at h; exact h.1.symm
  · split at h
    · simp at h
    · split at h
      · simp at h
      · simp at h
      · split at h
        · simp only [Outcome.ret.injEq, Prod.mk.injEq] at h; exact h.1.symm
        · simp at h

theorem Handler_of_newClient_error (w : World) (r : APIGatewayProxyRequest) (e : String)
    (h : w.newClient (w.getenv "GOOGLE_API") = .error e) :
    Handler w r =
      { logged := [e], outbound := [],
        result := .ret ({ StatusCode := 500, Body := "Internal Server Error" }, none) } := by
  unfold Handler
  simp only [h]
  rfl

theorem Handler_of_getDistance_ret (w : World) (r : APIGatewayProxyRequest) (client : Client)
    (distance : ByteSlice) (err : GoError)
    (h : w.newClient (w.getenv "GOOGLE_API") = .ok client)
    (hd : (getDistance w client (r.QueryStringParameters.index "origin")).2 =
      .ret (distance, err)) :
    Handler w r =
      { logged := [], outbound := [issuedRequest r],
        result := .ret ({ StatusCode := 200,
                          Body := (jsonMarshal { Distance := stringOfBytes distance,
                                                 Ok := true }).1 }, none) } := by
  have h1 := getDistance_fst w client (r.QueryStringParameters.index "origin")
  unfold Handler
  simp only [h]
  generalize getDistance w client (r.QueryStringParameters.index "origin") = g at h1 hd
  obtain ⟨req, out⟩ := g
  simp only at h1 hd
  subst h1 hd
  rfl

theorem Handler_of_getDistance_panic (w : World) (r : APIGatewayProxyRequest) (client : Client)
    (p : RuntimePanic)
    (h : w.newClient (w.getenv "GOOGLE_API") = .ok client)
    (hd : (getDistance w client (r.QueryStringParameters.index "origin")).2 = .panic p) :
    Handler w r = { logged := [], outbound := [issuedRequest r], result := .panic p } := by
  have h1 := getDistance_fst w client (r.QueryStringParameters.index "origin")
  unfold Handler
  simp only [h]
  generalize getDistance w client (r.QueryStringParameters.index "origin") = g at h1 hd
  obtain ⟨req, out⟩ := g
  simp only at h1 hd
  subst h1 hd
  rfl

theorem getDistance_of_upstream_error (w : World) (client : Client) (origin err : String)
    (h : w.distanceMatrix client
      { Origins := [origin], Destinations := [pmConnectAddress] } = .error err) :
    (getDistance w client origin).2 =
      .ret (none, some ("could not get response from origin " ++ origin ++ ": " ++ err)) := by
  unfold getDistance
  simp only [h]
  rfl

theorem getDistance_of_first_element (w : World) (client : Client) (origin : String)
    (resp : DistanceMatrixResponse) (row : DistanceMatrixElementsRow)
    (el : DistanceMatrixElement)
    (h : w.distanceMatrix client
      { Origins := [origin], Destinations := [pmConnectAddress] } = .ok resp)
    (hrow : resp.Rows.head? = some row) (hel : row.Elements.head? = some (some el)) :
    (getDistance w client origin).2 =
      if el.Distance.HumanReadable = "" then
        .ret (none, some "could not find a distance, is your origin correct?")
      else .ret (some el.Distance.HumanReadable, none) := by
  have hlen : el.Distance.HumanReadable.length = 0 ↔ el.Distance.HumanReadable = "" := by
    constructor
    · intro h0; exact String.ext (List.length_eq_zero.mp h0)
    · intro h0; rw [h0]; rfl
  unfold getDistance
  simp only [h]
  cases hr : resp.Rows with
  | nil => rw [hr] at hrow; simp at hrow
  | cons row1 rows =>
    rw [hr] at hrow
    simp only [List.head?_cons, Option.some.injEq] at hrow
    subst hrow
    simp only []
    cases he : row1.Elements with
    | nil => rw [he] at hel; simp at hel
    | cons el1 els =>
      rw [he] at hel
      simp only [List.head?_cons, Option.some.injEq] at hel
      subst hel
      simp only []
      by_cases hz : el.Distance.HumanReadable = ""
      · rw [if_pos (hlen.mpr hz), if_pos hz]; rfl
      · rw [if_neg (fun h0 => hz (hlen.mp h0)), if_neg hz]; rfl

/-! ## The claims -/

/-- C1: when the client is built and the upstream call succeeds with
`Rows[0].Elements[0].Distance.HumanReadable = d`, `d` not empty, `Handler`
returns status 200, a nil error and the JSON encoding of
`Response{Distance: d, Ok: true}`: the text `{"distance":`, the quoted `d`,
`,"ok":true}`, which reads back as the object with `distance = d`, `ok = true`. -/
theorem handler_success_body (w : World) (r : APIGatewayProxyRequest) (client : Client)
    (resp : DistanceMatrixResponse) (row : DistanceMatrixElementsRow)
    (el : DistanceMatrixElement) (d : String)
    (hclient : w.newClient (w.getenv "GOOGLE_API") = .ok client)
    (hup : w.distanceMatrix client (issuedRequest r) = .ok resp)
    (hrow : resp.Rows.head? = some row) (hel : row.Elements.head? = some (some el))
    (hd : el.Distance.HumanReadable = d) (hne : d ≠ "") :
    (Handler w r).result =
        .ret ({ StatusCode := 200, Body := (jsonMarshal { Distance := d, Ok := true }).1 },
              none) ∧
      (jsonMarshal { Distance := d, Ok := true }).1.data =
        "\x7b\"distance\":".data ++ appendString d ++ ",\"ok\":true\x7d".data ∧
      decodeResponse (jsonMarshal { Distance := d, Ok := true }).1 =
        some { Distance := d, Ok := true } := by
  have hg := getDistance_of_first_element w client (r.QueryStringParameters.index "origin")
    resp row el hup hrow hel
  rw [hd, if_neg hne] at hg
  refine ⟨?_, ?_, decodeResponse_jsonMarshal _⟩
  · rw [Handler_of_getDistance_ret w r client _ _ hclient hg]
    rfl
  · simp [jsonMarshal, appendBool]

/-- C2: when the client is built and `getDistance` returns an error, `Handler`
does not return the 404 response built by `clientError`: it returns status
200, a nil error and the body `{"distance":"","ok":true}`. -/
theorem handler_swallows_getDistance_error (w : World) (r : APIGatewayProxyRequest)
    (client : Client) (b : ByteSlice) (e : String)
    (hclient : w.newClient (w.getenv "GOOGLE_API") = .ok client)
    (herr : (getDistance w client (r.QueryStringParameters.index "origin")).2 =
      .ret (b, some e)) :
    (Handler w r).result =
        .ret ({ StatusCode := 200, Body := "\x7b\"distance\":\"\",\"ok\":true\x7d" }, none) ∧
      (Handler w r).result ≠ .ret (clientError StatusNotFound) := by
  have hb := getDistance_error_nil w client _ b e herr
  subst hb
  have hH := Handler_of_getDistance_ret w r client _ _ hclient herr
  have hbody : (jsonMarshal { Distance := stringOfBytes none, Ok := true }).1 =
      "\x7b\"distance\":\"\",\"ok\":true\x7d" := by decide
  rw [hbody] at hH
  rw [hH]
  refine ⟨rfl, ?_⟩
  simp [clientError, StatusNotFound]

/-- C3: when building the client from the `GOOGLE_API` credential fails with
error `e`, `Handler` returns status 500 with body `Internal Server Error`
(whatever `e` is) and a nil error, and the text of `e` is the one line handed
to the error logger. -/
theorem handler_client_failure (w : World) (r : APIGatewayProxyRequest) (e : String)
    (h : w.newClient (w.getenv "GOOGLE_API") = .error e) :
    (Handler w r).result =
        .ret ({ StatusCode := 500, Body := "Internal Server Error" }, none) ∧
      (Handler w r).logged = [e] := by
  rw [Handler_of_newClient_error w r e h]
  exact ⟨rfl, rfl⟩

/-- C4: when the client is built, `Handler` issues a distance-matrix request
with exactly one origin, the value of the query parameter `origin` (the empty
string when the key is absent), and exactly one destination, `B31 2UQ`. -/
theorem handler_issued_request (w : World) (r : APIGatewayProxyRequest) (client : Client)
    (hclient : w.newClient (w.getenv "GOOGLE_API") = .ok client) :
    (Handler w r).outbound =
      [{ Origins := [(r.QueryStringParameters.lookup "origin").getD ""],
         Destinations := ["B31 2UQ"] }] := by
  cases hg : (getDistance w client (r.QueryStringParameters.index "origin")).2 with
  | ret v =>
    obtain ⟨distance, err⟩ := v
    rw [Handler_of_getDistance_ret w r client distance err hclient hg]
    rfl
  | panic p =>
    rw [Handler_of_getDistance_panic w r client p hclient hg]
    rfl

/-- On an upstream response returned without error whose first row has a
first element, `getDistance` returns `(nil, error "could not find a distance,
is your origin correct?")` if and only if that element's human-readable
distance is empty; otherwise it returns the bytes of that distance and a nil
error. -/
theorem getDistance_empty_iff (w : World) (client : Client) (origin : String)
    (resp : DistanceMatrixResponse) (row : DistanceMatrixElementsRow)
    (el : DistanceMatrixElement)
    (h : w.distanceMatrix client
      { Origins := [origin], Destinations := [pmConnectAddress] } = .ok resp)
    (hrow : resp.Rows.head? = some row) (hel : row.Elements.head? = some (some el)) :
    ((getDistance w client origin).2 =
          .ret (none, some "could not find a distance, is your origin correct?") ↔
        el.Distance.HumanReadable = "") ∧
      (el.Distance.HumanReadable ≠ "" →
        (getDistance w client origin).2 =
          .ret (bytesOfString el.Distance.HumanReadable, none)) := by
  have hg := getDistance_of_first_element w client origin resp row el h hrow hel
  constructor
  · constructor
    · intro h1
      by_contra hne
      rw [hg, if_neg hne] at h1
      simp at h1
    · intro h0
      rw [hg, if_pos h0]
  · intro hne
    rw [hg, if_neg hne]
    rfl

/-- C5 (failing input): the upstream returns a nil error and a response
without rows.  `getDistance` then returns neither the error `could not find a
distance, is your origin correct?` nor the bytes of any distance with a nil
error: indexing `resp.Rows[0]` panics before a result is produced. -/
theorem getDistance_no_result_without_rows :
    worldNoRows.distanceMatrix { apiKey := "k3y" }
        { Origins := ["B1 1AA"], Destinations := [pmConnectAddress] } =
        .ok { Rows := [] } ∧
      (getDistance worldNoRows { apiKey := "k3y" } "B1 1AA").2 ≠
        .ret (none, some "could not find a distance, is your origin correct?") ∧
      (∀ d : String, (getDistance worldNoRows { apiKey := "k3y" } "B1 1AA").2 ≠
        .ret (bytesOfString d, none)) ∧
      ∀ v : ByteSlice × GoError,
        (getDistance worldNoRows { apiKey := "k3y" } "B1 1AA").2 ≠ .ret v := by
  have hp : (getDistance worldNoRows { apiKey := "k3y" } "B1 1AA").2 =
      .panic .indexOutOfRange := rfl
  refine ⟨rfl, ?_, ?_, ?_⟩
  · rw [hp]; simp
  · intro d; rw [hp]; simp
  · intro v; rw [hp]; simp

/-- C6 (as stated, refuted): with no key configured the body `Handler` returns
is the plain text `Internal Server Error`, which is not a JSON object of the
two-field schema. -/
theorem handler_body_not_json_on_500 :
    (Handler worldNoKey requestWithOrigin).result =
        .ret ({ StatusCode := 500, Body := "Internal Server Error" }, none) ∧
      ¬ IsResponseJSON "Internal Server Error" := by
  constructor
  · rfl
  · decide

/-- C6 (amended): whenever `Handler` returns, either the status is 200 and the
body is a valid JSON object with exactly the two fields `distance` (a string)
and `ok` (the boolean `true`), or the status is 500 and the body is the text
`Internal Server Error`. -/
theorem handler_body_schema (w : World) (r : APIGatewayProxyRequest)
    (resp : APIGatewayProxyResponse) (err : GoError)
    (h : (Handler w r).result = .ret (resp, err)) :
    (resp.StatusCode = 200 ∧ IsResponseJSON resp.Body ∧
        ∃ d, decodeResponse resp.Body = some { Distance := d, Ok := true }) ∨
      (resp.StatusCode = 500 ∧ resp.Body = "Internal Server Error") := by
  cases hc : w.newClient (w.getenv "GOOGLE_API") with
  | error e =>
    rw [Handler_of_newClient_error w r e hc] at h
    simp only [Outcome.ret.injEq, Prod.mk.injEq] at h
    right
    rw [← h.1]
    exact ⟨rfl, rfl⟩
  | ok client =>
    cases hg : (getDistance w client (r.QueryStringParameters.index "origin")).2 with
    | panic p =>
      rw [Handler_of_getDistance_panic w r client p hc hg] at h
      simp at h
    | ret v =>
      obtain ⟨distance, e⟩ := v
      rw [Handler_of_getDistance_ret w r client distance e hc hg] at h
      simp only [Outcome.ret.injEq, Prod.mk.injEq] at h
      left
      rw [← h.1]
      refine ⟨rfl, ?_, stringOfBytes distance, decodeResponse_jsonMarshal _⟩
      unfold IsResponseJSON
      simp only []
      rw [decodeResponse_jsonMarshal]
      rfl

/-- C7 (failing input): the upstream returns a nil error and a response
without rows; `resp.Rows[0]` is out of range and `getDistance`, hence
`Handler`, panics. -/
theorem getDistance_panics_without_rows :
    (getDistance worldNoRows { apiKey := "k3y" } "B1 1AA").2 = .panic .indexOutOfRange ∧
      (Handler worldNoRows requestWithOrigin).result = .panic .indexOutOfRange := by
  constructor <;> rfl

/-- C8 (as stated, refuted): with no key configured `Handler` makes no
outbound distance-matrix call at all. -/
theorem handler_no_outbound_call_without_client :
    (Handler worldNoKey requestWithOrigin).outbound.length = 0 ∧
      (Handler worldNoKey requestWithOrigin).logged.length = 1 := by
  constructor <;> rfl

/-- C8 (amended): `Handler` makes exactly one outbound distance-matrix call
when the client is built and none when building it fails; it hands exactly
one line to the error logger when building the client fails and none
otherwise. -/
theorem handler_effects (w : World) (r : APIGatewayProxyRequest) :
    (Handler w r).outbound.length =
        (match w.newClient (w.getenv "GOOGLE_API") with
          | .ok _ => 1
          | .error _ => 0) ∧
      (Handler w r).logged.length =
        (match w.newClient (w.getenv "GOOGLE_API") with
          | .ok _ => 0
          | .error _ => 1) := by
  cases hc : w.newClient (w.getenv "GOOGLE_API") with
  | error e =>
    rw [Handler_of_newClient_error w r e hc]
    exact ⟨rfl, rfl⟩
  | ok client =>
    cases hg : (getDistance w client (r.QueryStringParameters.index "origin")).2 with
    | panic p =>
      rw [Handler_of_getDistance_panic w r client p hc hg]
      exact ⟨rfl, rfl⟩
    | ret v =>
      obtain ⟨distance, e⟩ := v
      rw [Handler_of_getDistance_ret w r client distance e hc hg]
      exact ⟨rfl, rfl⟩

/-- C9: the status code of a response that `Handler` returns is 200 or 500,
and the response is never the 404 response built by
`clientError(http.StatusNotFound)`. -/
theorem handler_status_200_or_500 (w : World) (r : APIGatewayProxyRequest)
    (resp : APIGatewayProxyResponse) (err : GoError)
    (h : (Handler w r).result = .ret (resp, err)) :
    (resp.StatusCode = 200 ∨ resp.StatusCode = 500) ∧
      (resp, err) ≠ clientError StatusNotFound := by
  have hs : resp.StatusCode = 200 ∨ resp.StatusCode = 500 := by
    cases hc : w.newClient (w.getenv "GOOGLE_API") with
    | error e =>
      rw [Handler_of_newClient_error w r e hc] at h
      simp only [Outcome.ret.injEq, Prod.mk.injEq] at h
      right
      rw [← h.1]
    | ok client =>
      cases hg : (getDistance w client (r.QueryStringParameters.index "origin")).2 with
      | panic p =>
        rw [Handler_of_getDistance_panic w r client p hc hg] at h
        simp at h
      | ret v =>
        obtain ⟨distance, e⟩ := v
        rw [Handler_of_getDistance_ret w r client distance e hc hg] at h
        simp only [Outcome.ret.injEq, Prod.mk.injEq] at h
        left
        rw [← h.1]
  refine ⟨hs, ?_⟩
  intro heq
  have h404 : resp.StatusCode = 404 := by
    simp only [clientError, StatusNotFound, Prod.mk.injEq] at heq
    rw [heq.1]
  rcases hs with h200 | h500
  · rw [h200] at h404; exact absurd h404 (by decide)
  · rw [h500] at h404; exact absurd h404 (by decide)

/-- C10: whenever `Handler` returns normally, the Go error it returns is nil. -/
theorem handler_error_nil (w : World) (r : APIGatewayProxyRequest)
    (resp : APIGatewayProxyResponse) (err : GoError)
    (h : (Handler w r).result = .ret (resp, err)) : err = none := by
  cases hc : w.newClient (w.getenv "GOOGLE_API") with
  | error e =>
    rw [Handler_of_newClient_error w r e hc] at h
    simp only [Outcome.ret.injEq, Prod.mk.injEq] at h
    exact h.2.symm
  | ok client =>
    cases hg : (getDistance w client (r.QueryStringParameters.index "origin")).2 with
    | panic p =>
      rw [Handler_of_getDistance_panic w r client p hc hg] at h
      simp at h
    | ret v =>
      obtain ⟨distance, e⟩ := v
      rw [Handler_of_getDistance_ret w r client distance e hc hg] at h
      simp only [Outcome.ret.injEq, Prod.mk.injEq] at h
      exact h.2.symm

/-! ## The claims at concrete inputs -/

/-- C1 at a healthy upstream answering `5.2 km`. -/
theorem handler_success_body_witness :
    (Handler worldHealthy requestWithOrigin).result =
        .ret ({ StatusCode := 200, Body := "\x7b\"distance\":\"5.2 km\",\"ok\":true\x7d" },
              none) ∧
      decodeResponse "\x7b\"distance\":\"5.2 km\",\"ok\":true\x7d" =
        some { Distance := "5.2 km", Ok := true } :=
  have h := handler_success_body worldHealthy requestWithOrigin { apiKey := "k3y" }
    { Rows := [{ Elements := [some { Status := "OK",
                                      Distance := { HumanReadable := "5.2 km",
                                                    Meters := 5200 } }] }] }
    { Elements := [some { Status := "OK",
                          Distance := { HumanReadable := "5.2 km", Meters := 5200 } }] }
    { Status := "OK", Distance := { HumanReadable := "5.2 km", Meters := 5200 } }
    "5.2 km" rfl rfl rfl rfl rfl (by decide)
  ⟨h.1, h.2.2⟩

/-- C2 at an upstream whose call fails. -/
theorem handler_swallows_getDistance_error_witness :
    (getDistance worldUpstreamDown { apiKey := "k3y" } "B1 1AA").2 =
        .ret (none, some "could not get response from origin B1 1AA: context deadline exceeded") ∧
      (Handler worldUpstreamDown requestWithOrigin).result =
        .ret ({ StatusCode := 200, Body := "\x7b\"distance\":\"\",\"ok\":true\x7d" }, none) :=
  ⟨rfl,
   (handler_swallows_getDistance_error worldUpstreamDown requestWithOrigin
      { apiKey := "k3y" } none
      "could not get response from origin B1 1AA: context deadline exceeded" rfl rfl).1⟩

/-- C3 with no key configured. -/
theorem handler_client_failure_witness :
    (Handler worldNoKey requestWithOrigin).result =
        .ret ({ StatusCode := 500, Body := "Internal Server Error" }, none) ∧
      (Handler worldNoKey requestWithOrigin).logged =
        ["maps: API Key or Maps for Work credentials missing"] :=
  handler_client_failure worldNoKey requestWithOrigin
    "maps: API Key or Maps for Work credentials missing" rfl

/-- C4 at a request without the `origin` parameter: the origin sent is empty. -/
theorem handler_issued_request_witness :
    (Handler worldHealthy requestWithoutOrigin).outbound =
      [{ Origins := [""], Destinations := ["B31 2UQ"] }] :=
  handler_issued_request worldHealthy requestWithoutOrigin { apiKey := "k3y" } rfl

/-- The empty-distance error at an upstream answering an element without a distance. -/
theorem getDistance_empty_iff_witness :
    (getDistance worldNoDistance { apiKey := "k3y" } "nowhere").2 =
      .ret (none, some "could not find a distance, is your origin correct?") :=
  (getDistance_empty_iff worldNoDistance { apiKey := "k3y" } "nowhere"
    { Rows := [{ Elements := [some { Status := "NOT_FOUND" }] }] }
    { Elements := [some { Status := "NOT_FOUND" }] }
    { Status := "NOT_FOUND" } rfl rfl rfl).1.mpr rfl

/-- C6 (amended) at an upstream answering an element without a distance. -/
theorem handler_body_schema_witness :
    (200 : Int) = 200 ∧ IsResponseJSON "\x7b\"distance\":\"\",\"ok\":true\x7d" ∧
        (∃ d, decodeResponse "\x7b\"distance\":\"\",\"ok\":true\x7d" =
          some { Distance := d, Ok := true }) ∨
      (200 : Int) = 500 ∧
        "\x7b\"distance\":\"\",\"ok\":true\x7d" = "Internal Server Error" :=
  handler_body_schema worldNoDistance requestWithOrigin
    { StatusCode := 200, Body := "\x7b\"distance\":\"\",\"ok\":true\x7d" } none rfl

/-- C9 at a healthy upstream. -/
theorem handler_status_200_or_500_witness :
    ((200 : Int) = 200 ∨ (200 : Int) = 500) ∧
      (({ StatusCode := 200, Body := "\x7b\"distance\":\"5.2 km\",\"ok\":true\x7d" },
        none) : APIGatewayProxyResponse × GoError) ≠ clientError StatusNotFound :=
  handler_status_200_or_500 worldHealthy requestWithOrigin
    { StatusCode := 200, Body := "\x7b\"distance\":\"5.2 km\",\"ok\":true\x7d" } none rfl

/-- C10 at an upstream whose call fails: a response is returned, the error is nil. -/
theorem handler_error_nil_witness :
    (Handler worldUpstreamDown requestWithOrigin).result =
        .ret ({ StatusCode := 200, Body := "\x7b\"distance\":\"\",\"ok\":true\x7d" }, none) ∧
      (none : GoError) = none :=
  ⟨rfl,
   handler_error_nil worldUpstreamDown requestWithOrigin
     { StatusCode := 200, Body := "\x7b\"distance\":\"\",\"ok\":true\x7d" } none rfl⟩

end DistanceHandler
